import Mathlib

/-!
Shallow embedding of the zoom-client-s2s-translator Python sources
(src/python/src/audio/capture.py, playback.py, utils.py,
src/python/src/gemini/errors.py, src/python/src/routing/pipeline.py).

Conventions of the embedding:
* Python byte strings are lists: a capture buffer is a `List Int` of byte
  values (only lengths matter for the queue claims); 16-bit PCM sample views
  are `List Int` of int16 sample values.
* Python floats (timestamps, delays, durations) are modelled as exact
  rationals `ℚ`.
* `asyncio.Queue(maxsize)` / `queue.Queue(maxsize)` are a `List` plus a
  `queueMaxsize` field; `put_nowait` on a full queue raises `QueueFull`,
  which the code under study always catches, so it is modelled by the
  corresponding `else` branch.
* Methods are state-passing functions on a structure that mirrors the
  Python object's fields.
-/

namespace ZoomS2S

/-- Audio configuration constants (src/python/src/audio/`__init__`.py). -/
def SAMPLE_RATE_MIC : Nat := 16000

/-- System-audio sample rate constant. -/
def SAMPLE_RATE_SYSTEM : Nat := 24000

/-- Output sample rate constant. -/
def SAMPLE_RATE_OUTPUT : Nat := 24000

/-- Bit depth constant (16-bit PCM). -/
def BIT_DEPTH : Nat := 16

/-- Channel-count constant (mono). -/
def CHANNELS : Nat := 1

/-- Frames per buffer constant. -/
def CHUNK_SIZE : Nat := 1024

/-- `AudioChunk` frozen dataclass (capture.py lines 38-51).
`data` models the raw byte string `in_data`. -/
structure AudioChunk where
  data : List Int
  timestamp : ℚ
  sample_rate : Nat
  channels : Nat
  frames : Nat
deriving Repr, DecidableEq

/-- `AudioChunk.duration_ms` (capture.py lines 48-51):
`(self.frames / self.sample_rate) * 1000`, Python float division modelled
as exact rational division. -/
def AudioChunk.duration_ms (c : AudioChunk) : ℚ :=
  ((c.frames : ℚ) / (c.sample_rate : ℚ)) * 1000

/-- Mutable fields of `BaseCaptureDevice` (capture.py lines 80-117) that the
callback path touches.  `queueMaxsize` is the `asyncio.Queue(maxsize=100)`
capacity. -/
structure BaseCaptureDevice where
  sample_rate : Nat
  chunk_size : Nat
  channels : Nat
  queue : List AudioChunk
  queueMaxsize : Nat
  chunks_captured : Nat
  bytes_captured : Nat
  overruns : Nat
deriving Repr, DecidableEq

/-- `BaseCaptureDevice.__init__` (capture.py lines 80-117): empty queue of
capacity 100, zeroed statistics. -/
def BaseCaptureDevice.init (sample_rate chunk_size channels : Nat) : BaseCaptureDevice :=
  { sample_rate := sample_rate
    chunk_size := chunk_size
    channels := channels
    queue := []
    queueMaxsize := 100
    chunks_captured := 0
    bytes_captured := 0
    overruns := 0 }

/-- One invocation of `BaseCaptureDevice._audio_callback`
(capture.py lines 144-199):
1. if the driver reports `paInputOverflow`, bump `overruns`;
2. build the `AudioChunk`;
3. bump `chunks_captured` and `bytes_captured` unconditionally;
4. `put_nowait` the chunk, dropping it (and bumping `overruns`) when the
   queue is full.  The callback never blocks and never propagates an
   exception (returns `paContinue`). -/
def BaseCaptureDevice.audio_callback (s : BaseCaptureDevice) (in_data : List Int)
    (frame_count : Nat) (adc_time : ℚ) (inputOverflowFlag : Bool) : BaseCaptureDevice :=
  let s0 := if inputOverflowFlag then { s with overruns := s.overruns + 1 } else s
  let chunk : AudioChunk :=
    { data := in_data
      timestamp := adc_time
      sample_rate := s0.sample_rate
      channels := s0.channels
      frames := frame_count }
  let s1 := { s0 with
    chunks_captured := s0.chunks_captured + 1
    bytes_captured := s0.bytes_captured + in_data.length }
  if s1.queue.length < s1.queueMaxsize then
    { s1 with queue := s1.queue ++ [chunk] }
  else
    { s1 with overruns := s1.overruns + 1 }

/-- One callback entry: the data / frame count / ADC timestamp arguments of
`_audio_callback`. -/
structure CaptureInput where
  data : List Int
  frame_count : Nat
  adc_time : ℚ
deriving Repr, DecidableEq

/-- A sequence of callback-entry pushes with no intervening reads and the
driver overflow flag clear. -/
def BaseCaptureDevice.pushAll : BaseCaptureDevice → List CaptureInput → BaseCaptureDevice
  | s, [] => s
  | s, i :: rest =>
      BaseCaptureDevice.pushAll (s.audio_callback i.data i.frame_count i.adc_time false) rest

/-- `PlaybackState` enum (playback.py lines 29-36). -/
inductive PlaybackState where
  | STOPPED
  | STARTING
  | RUNNING
  | STOPPING
  | ERROR
deriving Repr, DecidableEq

/-- Mutable fields of `BasePlaybackDevice` (playback.py lines 57-110).
`queue` holds raw byte buffers; `queueMaxsize` is `queue.Queue(maxsize=100)`;
`silence` is the all-zero buffer built in `__init__`; `streamOpen` records
whether `pyaudio.open` has been called for this session. -/
structure BasePlaybackDevice where
  sample_rate : Nat
  chunk_size : Nat
  channels : Nat
  pstate : PlaybackState
  queue : List (List Int)
  queueMaxsize : Nat
  chunks_played : Nat
  bytes_played : Nat
  underruns : Nat
  silence : List Int
  prebuffer_size : Nat
  streamOpen : Bool
deriving Repr, DecidableEq

/-- `BasePlaybackDevice.__init__` (playback.py lines 68-110):
`bytes_per_chunk = chunk_size * channels * (BIT_DEPTH // 8)`,
`self._silence = bytes(bytes_per_chunk)`, `self._prebuffer_size = 2`. -/
def BasePlaybackDevice.init (sample_rate chunk_size channels : Nat) : BasePlaybackDevice :=
  { sample_rate := sample_rate
    chunk_size := chunk_size
    channels := channels
    pstate := PlaybackState.STOPPED
    queue := []
    queueMaxsize := 100
    chunks_played := 0
    bytes_played := 0
    underruns := 0
    silence := List.replicate (chunk_size * channels * (BIT_DEPTH / 8)) 0
    prebuffer_size := 2
    streamOpen := false }

/-- One invocation of `BasePlaybackDevice._audio_callback`
(playback.py lines 137-182): bump `underruns` when the driver reports
`paOutputUnderflow`; then `get_nowait`, returning the dequeued buffer and
bumping the played counters, or — on `queue.Empty` — returning the whole
silence buffer and bumping `underruns`.  The callback is total: it never
propagates an exception to the driver. -/
def BasePlaybackDevice.audio_callback (s : BasePlaybackDevice)
    (outputUnderflowFlag : Bool) : List Int × BasePlaybackDevice :=
  let s0 := if outputUnderflowFlag then { s with underruns := s.underruns + 1 } else s
  match s0.queue with
  | [] => (s0.silence, { s0 with underruns := s0.underruns + 1 })
  | d :: rest =>
      (d, { s0 with
        queue := rest
        chunks_played := s0.chunks_played + 1
        bytes_played := s0.bytes_played + d.length })

/-- One `self._queue.put_nowait(self._silence)` of the pre-buffer loop in
`start` (playback.py lines 214-219); `queue.Full` is swallowed (`pass`). -/
def BasePlaybackDevice.put_nowait_silence (s : BasePlaybackDevice) : BasePlaybackDevice :=
  if s.queue.length < s.queueMaxsize then { s with queue := s.queue ++ [s.silence] } else s

/-- `for _ in range(self._prebuffer_size): put_nowait(silence)`. -/
def BasePlaybackDevice.prefill : BasePlaybackDevice → Nat → BasePlaybackDevice
  | s, 0 => s
  | s, n + 1 => BasePlaybackDevice.prefill s.put_nowait_silence n

/-- `BasePlaybackDevice.start` (playback.py lines 184-246), success path:
reject non-STOPPED states, move to STARTING, pre-fill the queue with
silence chunks, then open and start the hardware stream and move to
RUNNING.  The pre-fill strictly precedes the `pyaudio.open` call. -/
def BasePlaybackDevice.start (s : BasePlaybackDevice) : Except String BasePlaybackDevice :=
  if s.pstate = PlaybackState.STOPPED then
    let s1 := { s with pstate := PlaybackState.STARTING }
    let s2 := s1.prefill s1.prebuffer_size
    Except.ok { s2 with streamOpen := true, pstate := PlaybackState.RUNNING }
  else
    Except.error "Cannot start: already started"

/-- Outcome of `write_chunk`: the Python method raises
`PlaybackStreamError` when not RUNNING, blocks on a full queue, and
otherwise enqueues. -/
inductive WriteResult where
  | raised
  | wouldBlock
  | queued
deriving Repr, DecidableEq

/-- `BasePlaybackDevice.write_chunk` (playback.py lines 314-342). -/
def BasePlaybackDevice.write_chunk (s : BasePlaybackDevice) (audio_data : List Int) :
    WriteResult × BasePlaybackDevice :=
  if s.pstate = PlaybackState.RUNNING then
    if s.queue.length < s.queueMaxsize then
      (WriteResult.queued, { s with queue := s.queue ++ [audio_data] })
    else (WriteResult.wouldBlock, s)
  else (WriteResult.raised, s)

/-- `BasePlaybackDevice.write_chunk_nowait` (playback.py lines 344-364):
returns `False` (without enqueueing) when not RUNNING or when the queue is
full, `True` after a successful enqueue. -/
def BasePlaybackDevice.write_chunk_nowait (s : BasePlaybackDevice) (audio_data : List Int) :
    Bool × BasePlaybackDevice :=
  if s.pstate = PlaybackState.RUNNING then
    if s.queue.length < s.queueMaxsize then
      (true, { s with queue := s.queue ++ [audio_data] })
    else (false, s)
  else (false, s)

/-- `ReconnectionState` enum (errors.py lines 58-64). -/
inductive ReconnectionState where
  | IDLE
  | CONNECTING
  | CONNECTED
  | FAILED
deriving Repr, DecidableEq

/-- Outcome of one call to the `connect_func` passed to
`reconnect_with_backoff`: success, `GeminiAuthenticationError`, or any
other (transient) exception. -/
inductive ConnectOutcome where
  | success
  | authError
  | transientError
deriving Repr, DecidableEq

/-- Observable outcome of `ReconnectionHandler.reconnect_with_backoff`:
return value, number of calls to `connect_func`, final `_retry_count`,
number of `asyncio.sleep` backoff delays performed, final `_state`. -/
structure ReconnectResult where
  ok : Bool
  connectCalls : Nat
  retry_count : Nat
  sleeps : Nat
  rstate : ReconnectionState
deriving Repr, DecidableEq

/-- The `while self._retry_count < self._max_retries` loop of
`reconnect_with_backoff` (errors.py lines 125-208).  `attempts k` gives the
outcome of the (k+1)-th call to `connect_func`.  A backoff sleep happens
only when `_retry_count > 0` at the top of the iteration.  On success the
code sets CONNECTED and then `reset()` (retry 0, state IDLE); an
authentication error returns `False` at once with `_retry_count`
untouched; other exceptions bump `_retry_count` and either give up
(`FAILED`) or loop. -/
def reconnectLoop (attempts : Nat → ConnectOutcome)
    (max_retries retry_count calls sleeps : Nat) : ReconnectResult :=
  if _h : retry_count < max_retries then
    let sleeps1 := if 0 < retry_count then sleeps + 1 else sleeps
    match attempts calls with
    | ConnectOutcome.success =>
        ⟨true, calls + 1, 0, sleeps1, ReconnectionState.IDLE⟩
    | ConnectOutcome.authError =>
        ⟨false, calls + 1, retry_count, sleeps1, ReconnectionState.FAILED⟩
    | ConnectOutcome.transientError =>
        if h2 : max_retries ≤ retry_count + 1 then
          ⟨false, calls + 1, retry_count + 1, sleeps1, ReconnectionState.FAILED⟩
        else
          reconnectLoop attempts max_retries (retry_count + 1) (calls + 1) sleeps1
  else
    ⟨false, calls, retry_count, sleeps, ReconnectionState.FAILED⟩
termination_by max_retries - retry_count
decreasing_by omega

/-- `ReconnectionHandler.reconnect_with_backoff` entry: `_retry_count` is
reset to 0 before the loop. -/
def ReconnectionHandler.reconnect_with_backoff (max_retries : Nat)
    (attempts : Nat → ConnectOutcome) : ReconnectResult :=
  reconnectLoop attempts max_retries 0 0 0

/-- `SessionTimeoutTracker` (errors.py lines 211-289).  The clock is passed
explicitly: `now` stands for `asyncio.get_running_loop().time()`.
`reconnect_buffer` models the class constant `RECONNECT_BUFFER = 30.0`. -/
structure SessionTimeoutTracker where
  session_timeout : ℚ
  reconnect_buffer : ℚ
  session_start_time : Option ℚ
deriving Repr, DecidableEq

/-- `SessionTimeoutTracker.__init__`. -/
def SessionTimeoutTracker.init (session_timeout : ℚ) : SessionTimeoutTracker :=
  { session_timeout := session_timeout, reconnect_buffer := 30, session_start_time := none }

/-- `start_session` (errors.py lines 232-235). -/
def SessionTimeoutTracker.start_session (s : SessionTimeoutTracker) (now : ℚ) :
    SessionTimeoutTracker :=
  { s with session_start_time := some now }

/-- `end_session` (errors.py lines 237-240). -/
def SessionTimeoutTracker.end_session (s : SessionTimeoutTracker) : SessionTimeoutTracker :=
  { s with session_start_time := none }

/-- `get_session_duration` (errors.py lines 242-253). -/
def SessionTimeoutTracker.get_session_duration (s : SessionTimeoutTracker) (now : ℚ) : ℚ :=
  match s.session_start_time with
  | none => 0
  | some t0 => now - t0

/-- `should_reconnect` (errors.py lines 255-275):
`duration >= session_timeout - RECONNECT_BUFFER`, false with no active
session. -/
def SessionTimeoutTracker.should_reconnect (s : SessionTimeoutTracker) (now : ℚ) : Bool :=
  match s.session_start_time with
  | none => false
  | some _ =>
      decide (s.session_timeout - s.reconnect_buffer ≤ s.get_session_duration now)

/-- `PipelineMode` enum (pipeline.py lines 38-43). -/
inductive PipelineMode where
  | OUTGOING
  | INCOMING
  | BIDIRECTIONAL
deriving Repr, DecidableEq

/-- `PipelineState` enum (pipeline.py lines 46-53). -/
inductive PipelineState where
  | STOPPED
  | STARTING
  | RUNNING
  | STOPPING
  | ERROR
deriving Repr, DecidableEq

/-- `TranslationPipeline` client-identity fields (pipeline.py lines 98-146).
Each `GeminiS2STClient(config=...)` construction allocates a fresh object;
object identities are modelled by an allocation counter `nextClientId`, so
two clients are the same Python object iff their ids are equal. -/
structure TranslationPipeline where
  gemini_client : Option Nat
  outgoing_gemini_client : Option Nat
  incoming_gemini_client : Option Nat
  nextClientId : Nat
  pstate : PipelineState
  current_mode : Option PipelineMode
deriving Repr, DecidableEq

/-- `TranslationPipeline.__init__`: all clients `None`, state STOPPED. -/
def TranslationPipeline.init : TranslationPipeline :=
  { gemini_client := none
    outgoing_gemini_client := none
    incoming_gemini_client := none
    nextClientId := 0
    pstate := PipelineState.STOPPED
    current_mode := none }

/-- `_initialize_gemini_client` (pipeline.py lines 192-197): allocate a
fresh client only if `_gemini_client is None`. -/
def TranslationPipeline.initialize_gemini_client (s : TranslationPipeline) :
    TranslationPipeline :=
  match s.gemini_client with
  | none => { s with gemini_client := some s.nextClientId, nextClientId := s.nextClientId + 1 }
  | some _ => s

/-- `_initialize_bidirectional_clients` (pipeline.py lines 199-209): two
separately guarded fresh allocations, outgoing first. -/
def TranslationPipeline.initialize_bidirectional_clients (s : TranslationPipeline) :
    TranslationPipeline :=
  let s1 :=
    match s.outgoing_gemini_client with
    | none =>
        { s with outgoing_gemini_client := some s.nextClientId
                 nextClientId := s.nextClientId + 1 }
    | some _ => s
  match s1.incoming_gemini_client with
  | none =>
      { s1 with incoming_gemini_client := some s1.nextClientId
                nextClientId := s1.nextClientId + 1 }
  | some _ => s1

/-- `start_outgoing` (pipeline.py lines 255-286), success path. -/
def TranslationPipeline.start_outgoing (s : TranslationPipeline) :
    Except String TranslationPipeline :=
  if s.pstate = PipelineState.RUNNING then Except.error "Pipeline is already running"
  else
    Except.ok
      { ({ s with pstate := PipelineState.STARTING
                  current_mode := some PipelineMode.OUTGOING }).initialize_gemini_client with
        pstate := PipelineState.RUNNING }

/-- `start_incoming` (pipeline.py lines 378-409), success path. -/
def TranslationPipeline.start_incoming (s : TranslationPipeline) :
    Except String TranslationPipeline :=
  if s.pstate = PipelineState.RUNNING then Except.error "Pipeline is already running"
  else
    Except.ok
      { ({ s with pstate := PipelineState.STARTING
                  current_mode := some PipelineMode.INCOMING }).initialize_gemini_client with
        pstate := PipelineState.RUNNING }

/-- `start_bidirectional` (pipeline.py lines 469-506), success path: the
two loops are launched with `self._outgoing_gemini_client` and
`self._incoming_gemini_client` respectively. -/
def TranslationPipeline.start_bidirectional (s : TranslationPipeline) :
    Except String TranslationPipeline :=
  if s.pstate = PipelineState.RUNNING then Except.error "Pipeline is already running"
  else
    Except.ok
      { ({ s with pstate := PipelineState.STARTING
                  current_mode :=
                    some PipelineMode.BIDIRECTIONAL }).initialize_bidirectional_clients with
        pstate := PipelineState.RUNNING }

/-- `stop` (pipeline.py lines 560-604), success path: disconnect and null
out every client, state STOPPED, mode `None`. -/
def TranslationPipeline.stop (s : TranslationPipeline) : TranslationPipeline :=
  if s.pstate = PipelineState.STOPPED then s
  else
    { s with gemini_client := none
             outgoing_gemini_client := none
             incoming_gemini_client := none
             pstate := PipelineState.STOPPED
             current_mode := none }

/-- `client = gemini_client or self._gemini_client` at the top of each
send/receive loop (pipeline.py lines 295, 318, 420, 453). -/
def loopClient (geminiClientArg selfGeminiClient : Option Nat) : Option Nat :=
  match geminiClientArg with
  | some c => some c
  | none => selfGeminiClient

/-- One public pipeline operation (success paths of the orchestrator). -/
inductive PipelineStep : TranslationPipeline → TranslationPipeline → Prop where
  | startOutgoing (s t : TranslationPipeline) :
      s.start_outgoing = Except.ok t → PipelineStep s t
  | startIncoming (s t : TranslationPipeline) :
      s.start_incoming = Except.ok t → PipelineStep s t
  | startBidirectional (s t : TranslationPipeline) :
      s.start_bidirectional = Except.ok t → PipelineStep s t
  | stop (s : TranslationPipeline) : PipelineStep s s.stop

/-- Pipeline states reachable from `__init__` through public operations. -/
inductive PipelineReachable : TranslationPipeline → Prop where
  | init : PipelineReachable TranslationPipeline.init
  | step (s t : TranslationPipeline) :
      PipelineReachable s → PipelineStep s t → PipelineReachable t

/-- Client-identity invariant of the pipeline: allocated ids are below the
allocation counter, the two bidirectional clients are never the same
object, and a RUNNING bidirectional pipeline has both of them. -/
def TranslationPipeline.ClientInv (s : TranslationPipeline) : Prop :=
  (∀ i, s.gemini_client = some i → i < s.nextClientId) ∧
  (∀ i, s.outgoing_gemini_client = some i → i < s.nextClientId) ∧
  (∀ i, s.incoming_gemini_client = some i → i < s.nextClientId) ∧
  (∀ a b, s.outgoing_gemini_client = some a → s.incoming_gemini_client = some b → a ≠ b) ∧
  (s.pstate = PipelineState.RUNNING → s.current_mode = some PipelineMode.BIDIRECTIONAL →
    s.outgoing_gemini_client.isSome = true ∧ s.incoming_gemini_client.isSome = true)

/-- numpy `audio_array.mean(axis=1).astype(np.int16)` on one stereo int16
frame `(l, r)`: the float64 mean `(l + r) / 2` is exact for int16 inputs,
and the C-style cast of `astype` truncates toward zero, which is exactly
`Int.tdiv` (T-division). -/
def meanAstypeInt16 (l r : Int) : Int := Int.tdiv (l + r) 2

/-- `convert_to_mono` (utils.py lines 91-120) on the int16 sample view:
reshape to frames of two samples, average, truncate back to int16. -/
def convert_to_mono : List Int → List Int
  | l :: r :: rest => meanAstypeInt16 l r :: convert_to_mono rest
  | _ => []

/-- The identical in-callback mixdown of `SystemAudioCapture._audio_callback`
(capture.py lines 466-477). -/
def SystemAudioCapture.mixStereoToMono : List Int → List Int
  | l :: r :: rest => meanAstypeInt16 l r :: SystemAudioCapture.mixStereoToMono rest
  | _ => []

/-- The chunk as built by the base callback after the stereo branch of
`SystemAudioCapture._audio_callback`: mixed-down samples, channel count
relabeled to 1, frame count forwarded unchanged. -/
structure SampleChunk where
  samples : List Int
  channels : Nat
  frames : Nat
deriving Repr, DecidableEq

/-- Data path of `SystemAudioCapture._audio_callback` (capture.py lines
446-489): with `stereo_to_mono` and two input channels the buffer is mixed
down and the chunk is relabeled as mono; otherwise the buffer passes
through. -/
def SystemAudioCapture.callback_chunk (stereo_to_mono : Bool) (input_channels : Nat)
    (inSamples : List Int) (frame_count : Nat) : SampleChunk :=
  if stereo_to_mono = true ∧ input_channels = 2 then
    { samples := SystemAudioCapture.mixStereoToMono inSamples
      channels := 1
      frames := frame_count }
  else
    { samples := inSamples, channels := input_channels, frames := frame_count }

/-- A stereo buffer of `n` frames in which every frame has the same two
channel values `l` and `r` (interleaved int16 samples). -/
def interleaveConst : Nat → Int → Int → List Int
  | 0, _, _ => []
  | n + 1, l, r => l :: r :: interleaveConst n l r

/-- Concrete capture device with queue capacity 2, used as witness input. -/
def captureEx : BaseCaptureDevice :=
  { sample_rate := 16000
    chunk_size := 1024
    channels := 1
    queue := []
    queueMaxsize := 2
    chunks_captured := 0
    bytes_captured := 0
    overruns := 0 }

/-- Three concrete callback entries, one more than `captureEx`'s capacity. -/
def captureInputsEx : List CaptureInput :=
  [{ data := [0, 1], frame_count := 1, adc_time := 0 },
   { data := [2, 3], frame_count := 1, adc_time := 1 },
   { data := [4, 5], frame_count := 1, adc_time := 2 }]

/-- Concrete freshly initialized playback device (tiny chunk size so the
silence buffer is small). -/
def playbackStoppedEx : BasePlaybackDevice := BasePlaybackDevice.init 8000 1 1

/-- The same device once RUNNING with an empty queue (driver has drained
the pre-buffer). -/
def playbackRunningEmptyEx : BasePlaybackDevice :=
  { playbackStoppedEx with pstate := PlaybackState.RUNNING, streamOpen := true, queue := [] }

/-- The pipeline state produced by `start_bidirectional` from `init`. -/
def pipelineBidiEx : TranslationPipeline :=
  { gemini_client := none
    outgoing_gemini_client := some 0
    incoming_gemini_client := some 1
    nextClientId := 2
    pstate := PipelineState.RUNNING
    current_mode := some PipelineMode.BIDIRECTIONAL }

end ZoomS2S

namespace ZoomS2S

theorem audio_callback_noflag_eq (s : BaseCaptureDevice) (d : List Int) (fc : Nat) (t : ℚ) :
    s.audio_callback d fc t false =
      if s.queue.length < s.queueMaxsize then
        { s with queue := s.queue ++ [⟨d, t, s.sample_rate, s.channels, fc⟩]
                 chunks_captured := s.chunks_captured + 1
                 bytes_captured := s.bytes_captured + d.length }
      else
        { s with chunks_captured := s.chunks_captured + 1
                 bytes_captured := s.bytes_captured + d.length
                 overruns := s.overruns + 1 } := by
  simp [BaseCaptureDevice.audio_callback]

theorem pushAll_spec (inputs : List CaptureInput) : ∀ (s : BaseCaptureDevice),
    s.queue.length ≤ s.queueMaxsize →
    (s.pushAll inputs).queue.length
        = min (s.queue.length + inputs.length) s.queueMaxsize ∧
    (s.pushAll inputs).overruns
        = s.overruns + ((s.queue.length + inputs.length) - s.queueMaxsize) ∧
    (s.pushAll inputs).chunks_captured = s.chunks_captured + inputs.length ∧
    (s.pushAll inputs).bytes_captured
        = s.bytes_captured + (inputs.map (fun i => i.data.length)).sum ∧
    (s.pushAll inputs).queueMaxsize = s.queueMaxsize := by
  induction inputs with
  | nil =>
      intro s h
      simp only [BaseCaptureDevice.pushAll, List.length_nil, List.map_nil, List.sum_nil,
        Nat.add_zero]
      exact ⟨by omega, by omega, trivial, trivial, trivial⟩
  | cons i rest ih =>
      intro s h
      rw [BaseCaptureDevice.pushAll, audio_callback_noflag_eq]
      by_cases hq : s.queue.length < s.queueMaxsize
      · rw [if_pos hq]
        obtain ⟨h1, h2, h3, h4, h5⟩ := ih
          { s with queue := s.queue ++ [⟨i.data, i.adc_time, s.sample_rate, s.channels,
              i.frame_count⟩]
                   chunks_captured := s.chunks_captured + 1
                   bytes_captured := s.bytes_captured + i.data.length }
          (by simp only [List.length_append, List.length_cons, List.length_nil]; omega)
        simp only [List.length_append, List.length_cons, List.length_nil] at h1 h2
        simp only [h1, h2, h3, h4, h5, List.length_cons, List.map_cons, List.sum_cons]
        exact ⟨by omega, by omega, by omega, by omega, trivial⟩
      · rw [if_neg hq]
        obtain ⟨h1, h2, h3, h4, h5⟩ := ih
          { s with chunks_captured := s.chunks_captured + 1
                   bytes_captured := s.bytes_captured + i.data.length
                   overruns := s.overruns + 1 }
          (by simpa using h)
        simp only [h1, h2, h3, h4, h5, List.length_cons, List.map_cons, List.sum_cons]
        exact ⟨by omega, by omega, by omega, by omega, trivial⟩

/-- C1: pushing P chunks through the capture callback entry into an
initially empty queue of capacity C, with no reads in between and the
driver overflow flag clear, bumps the overrun counter by exactly P − C
when P > C, keeps the queue size at most C after every push, and leaves
exactly min P C chunks enqueued (a chunk arriving at a full queue is
dropped, never enqueued; the push is a total non-blocking function). -/
theorem capture_queue_bounded_and_overruns_exact (s : BaseCaptureDevice)
    (inputs : List CaptureInput) (hempty : s.queue = []) :
    (inputs.length > s.queueMaxsize →
      (s.pushAll inputs).overruns = s.overruns + (inputs.length - s.queueMaxsize)) ∧
    (∀ k : Nat, (s.pushAll (inputs.take k)).queue.length ≤ s.queueMaxsize) ∧
    (s.pushAll inputs).queue.length = min inputs.length s.queueMaxsize := by
  have h0 : s.queue.length ≤ s.queueMaxsize := by rw [hempty]; simp
  refine ⟨?_, ?_, ?_⟩
  · intro _
    have h := (pushAll_spec inputs s h0).2.1
    rw [hempty] at h
    simpa using h
  · intro k
    have h := (pushAll_spec (inputs.take k) s h0).1
    rw [hempty] at h
    simp only [List.length_nil, Nat.zero_add] at h
    omega
  · have h := (pushAll_spec inputs s h0).1
    rw [hempty] at h
    simpa using h

/-- Witness for C1: capacity 2, three pushes, one overrun, two enqueued. -/
theorem capture_queue_bounded_and_overruns_exact_witness :
    captureEx.queue = [] ∧
    (captureEx.pushAll captureInputsEx).overruns
        = captureEx.overruns + (captureInputsEx.length - captureEx.queueMaxsize) ∧
    (captureEx.pushAll (captureInputsEx.take 2)).queue.length ≤ captureEx.queueMaxsize ∧
    (captureEx.pushAll captureInputsEx).queue.length
        = min captureInputsEx.length captureEx.queueMaxsize :=
  ⟨rfl,
   (capture_queue_bounded_and_overruns_exact captureEx captureInputsEx rfl).1 (by decide),
   (capture_queue_bounded_and_overruns_exact captureEx captureInputsEx rfl).2.1 2,
   (capture_queue_bounded_and_overruns_exact captureEx captureInputsEx rfl).2.2⟩

/-- C9: the captured-statistics counters count arrivals, not deliveries:
every single callback invocation bumps `chunks_captured` (even when the
queue is full and the chunk is dropped), and after P pushes into an
initially empty queue of capacity C with no reads, `chunks_captured`
equals P while only min P C chunks are readable from the queue. -/
theorem capture_stats_count_arrivals (s : BaseCaptureDevice)
    (inputs : List CaptureInput) (hempty : s.queue = []) :
    (s.pushAll inputs).chunks_captured = s.chunks_captured + inputs.length ∧
    (s.pushAll inputs).bytes_captured
        = s.bytes_captured + (inputs.map (fun i => i.data.length)).sum ∧
    (s.pushAll inputs).queue.length = min inputs.length s.queueMaxsize ∧
    (∀ (t : BaseCaptureDevice) (d : List Int) (fc : Nat) (ts : ℚ) (flag : Bool),
      (t.audio_callback d fc ts flag).chunks_captured = t.chunks_captured + 1 ∧
      (t.audio_callback d fc ts flag).bytes_captured = t.bytes_captured + d.length) := by
  have h0 : s.queue.length ≤ s.queueMaxsize := by rw [hempty]; simp
  obtain ⟨h1, _, h3, h4, _⟩ := pushAll_spec inputs s h0
  rw [hempty] at h1
  refine ⟨h3, h4, by simpa using h1, ?_⟩
  intro t d fc ts flag
  cases flag <;> simp [BaseCaptureDevice.audio_callback] <;> split <;> simp

/-- Witness for C9: three pushes into capacity 2 give `chunks_captured` 3,
`bytes_captured` 6, queue length 2. -/
theorem capture_stats_count_arrivals_witness :
    captureEx.queue = [] ∧
    (captureEx.pushAll captureInputsEx).chunks_captured
        = captureEx.chunks_captured + captureInputsEx.length ∧
    (captureEx.pushAll captureInputsEx).queue.length
        = min captureInputsEx.length captureEx.queueMaxsize :=
  ⟨rfl,
   (capture_stats_count_arrivals captureEx captureInputsEx rfl).1,
   (capture_stats_count_arrivals captureEx captureInputsEx rfl).2.2.1⟩

/-- C8: `duration_ms` of a chunk with frames F and rate R is F/R·1000 as
an exact rational identity: multiplied back by R it gives exactly F·1000.
Python float arithmetic is modelled over `ℚ`. -/
theorem duration_ms_exact (F R : Nat) (hF : 0 < F) (hR : 0 < R)
    (d : List Int) (ts : ℚ) (ch : Nat) :
    AudioChunk.duration_ms ⟨d, ts, R, ch, F⟩
      = (F : ℚ) / (R : ℚ) * 1000 ∧
    AudioChunk.duration_ms ⟨d, ts, R, ch, F⟩ * (R : ℚ)
      = (F : ℚ) * 1000 := by
  have hR0 : (R : ℚ) ≠ 0 := by
    exact_mod_cast Nat.pos_iff_ne_zero.mp hR
  constructor
  · rfl
  · show (F : ℚ) / (R : ℚ) * 1000 * (R : ℚ) = (F : ℚ) * 1000
    field_simp

/-- Witness for C8 at F = 1, R = 3. -/
theorem duration_ms_exact_witness :
    AudioChunk.duration_ms ⟨[], 0, 3, 1, 1⟩
      = (1 : ℚ) / (3 : ℚ) * 1000 ∧
    AudioChunk.duration_ms ⟨[], 0, 3, 1, 1⟩ * (3 : ℚ)
      = (1 : ℚ) * 1000 := by
  have h := duration_ms_exact 1 3 (by decide) (by decide) [] 0 1
  exact_mod_cast h

/-- C10: on a playback port whose state is not RUNNING,
`write_chunk_nowait` returns `False` and changes nothing, while
`write_chunk` raises `PlaybackStreamError` (and also changes nothing). -/
theorem write_chunk_not_running (s : BasePlaybackDevice) (data : List Int)
    (hs : s.pstate ≠ PlaybackState.RUNNING) :
    s.write_chunk_nowait data = (false, s) ∧
    s.write_chunk data = (WriteResult.raised, s) := by
  constructor
  · simp [BasePlaybackDevice.write_chunk_nowait, hs]
  · simp [BasePlaybackDevice.write_chunk, hs]

/-- Witness for C10 on a freshly initialized (STOPPED) device. -/
theorem write_chunk_not_running_witness :
    playbackStoppedEx.pstate ≠ PlaybackState.RUNNING ∧
    playbackStoppedEx.write_chunk_nowait [7] = (false, playbackStoppedEx) ∧
    playbackStoppedEx.write_chunk [7] = (WriteResult.raised, playbackStoppedEx) :=
  ⟨by decide,
   (write_chunk_not_running playbackStoppedEx [7] (by decide)).1,
   (write_chunk_not_running playbackStoppedEx [7] (by decide)).2⟩

/-- C2 counterexample: when the driver reports `paOutputUnderflow` and the
queue is also empty, one callback invocation bumps `underruns` by 2, not
by exactly 1 as the claim states for every empty-queue invocation. -/
theorem playback_callback_underrun_counterexample :
    (playbackRunningEmptyEx.audio_callback true).2.underruns
        ≠ playbackRunningEmptyEx.underruns + 1 ∧
    (playbackRunningEmptyEx.audio_callback true).2.underruns
        = playbackRunningEmptyEx.underruns + 2 := by
  constructor <;> decide

/-- C2 (amended): for every callback invocation with the queue empty and
the driver underflow flag clear, the callback returns the all-zero
silence buffer of exactly chunk_size·channels·(BIT_DEPTH/8) bytes, bumps
`underruns` by exactly 1, and leaves `chunks_played` and `bytes_played`
unchanged; with the underflow flag set it bumps `underruns` by exactly 2
instead.  The callback is a total function, so no exception reaches the
driver. -/
theorem playback_callback_empty_queue (s : BasePlaybackDevice)
    (hq : s.queue = [])
    (hsil : s.silence = List.replicate (s.chunk_size * s.channels * (BIT_DEPTH / 8)) 0) :
    (s.audio_callback false).1
        = List.replicate (s.chunk_size * s.channels * (BIT_DEPTH / 8)) 0 ∧
    (s.audio_callback false).1.length = s.chunk_size * s.channels * (BIT_DEPTH / 8) ∧
    (s.audio_callback false).2.underruns = s.underruns + 1 ∧
    (s.audio_callback false).2.chunks_played = s.chunks_played ∧
    (s.audio_callback false).2.bytes_played = s.bytes_played ∧
    (s.audio_callback true).2.underruns = s.underruns + 2 := by
  refine ⟨?_, ?_, ?_, ?_, ?_, ?_⟩ <;>
    simp [BasePlaybackDevice.audio_callback, hq, hsil]

/-- Witness for C2 (amended) on a RUNNING device with an empty queue. -/
theorem playback_callback_empty_queue_witness :
    playbackRunningEmptyEx.queue = [] ∧
    playbackRunningEmptyEx.silence
        = List.replicate
            (playbackRunningEmptyEx.chunk_size * playbackRunningEmptyEx.channels
              * (BIT_DEPTH / 8)) 0 ∧
    (playbackRunningEmptyEx.audio_callback false).1
        = List.replicate
            (playbackRunningEmptyEx.chunk_size * playbackRunningEmptyEx.channels
              * (BIT_DEPTH / 8)) 0 ∧
    (playbackRunningEmptyEx.audio_callback false).2.underruns
        = playbackRunningEmptyEx.underruns + 1 :=
  ⟨rfl, by decide,
   (playback_callback_empty_queue playbackRunningEmptyEx rfl (by decide)).1,
   (playback_callback_empty_queue playbackRunningEmptyEx rfl (by decide)).2.2.1⟩

/-- C3: with max_retries ≥ 1 and a connect function whose first call
raises `GeminiAuthenticationError`, `reconnect_with_backoff` returns
`False` after exactly one connect call, with `_retry_count` 0, no backoff
sleep, and final state FAILED. -/
theorem reconnect_auth_error_aborts (max_retries : Nat)
    (attempts : Nat → ConnectOutcome) (hmr : 1 ≤ max_retries)
    (hauth : attempts 0 = ConnectOutcome.authError) :
    ReconnectionHandler.reconnect_with_backoff max_retries attempts =
      { ok := false, connectCalls := 1, retry_count := 0, sleeps := 0,
        rstate := ReconnectionState.FAILED } := by
  have h0 : 0 < max_retries := hmr
  unfold ReconnectionHandler.reconnect_with_backoff
  rw [reconnectLoop]
  simp [h0, hauth]

/-- Witness for C3: five allowed retries, permanently failing auth. -/
theorem reconnect_auth_error_aborts_witness :
    1 ≤ 5 ∧
    ReconnectionHandler.reconnect_with_backoff 5 (fun _ => ConnectOutcome.authError) =
      { ok := false, connectCalls := 1, retry_count := 0, sleeps := 0,
        rstate := ReconnectionState.FAILED } :=
  ⟨by decide, reconnect_auth_error_aborts 5 (fun _ => ConnectOutcome.authError)
    (by decide) rfl⟩

/-- C4: with reconnect buffer B smaller than session timeout T,
`should_reconnect` is false immediately after `start_session` (elapsed 0),
true whenever the elapsed time since `start_session` is at least T − B,
and after `end_session` the derived duration is 0 and `should_reconnect`
is false. -/
theorem session_tracker_reconnect_window (s : SessionTimeoutTracker) (now : ℚ)
    (hBT : s.reconnect_buffer < s.session_timeout) :
    (s.start_session now).should_reconnect now = false ∧
    (∀ later : ℚ, s.session_timeout - s.reconnect_buffer ≤ later - now →
      (s.start_session now).should_reconnect later = true) ∧
    (∀ t : ℚ, (s.start_session now).end_session.get_session_duration t = 0 ∧
      (s.start_session now).end_session.should_reconnect t = false) := by
  refine ⟨?_, ?_, ?_⟩
  · simp only [SessionTimeoutTracker.start_session, SessionTimeoutTracker.should_reconnect,
      SessionTimeoutTracker.get_session_duration, sub_self, decide_eq_false_iff_not]
    intro hcon
    linarith
  · intro later h
    simp only [SessionTimeoutTracker.start_session, SessionTimeoutTracker.should_reconnect,
      SessionTimeoutTracker.get_session_duration, decide_eq_true_eq]
    exact h
  · intro t
    exact ⟨rfl, rfl⟩

/-- Witness for C4: default 600 s timeout and 30 s buffer, session started
at clock 0, queried at 0 and at 600. -/
theorem session_tracker_reconnect_window_witness :
    (SessionTimeoutTracker.init 600).reconnect_buffer
        < (SessionTimeoutTracker.init 600).session_timeout ∧
    ((SessionTimeoutTracker.init 600).start_session 0).should_reconnect 0 = false ∧
    ((SessionTimeoutTracker.init 600).start_session 0).should_reconnect 600 = true ∧
    ((SessionTimeoutTracker.init 600).start_session 0).end_session.get_session_duration 50
        = 0 :=
  ⟨by norm_num [SessionTimeoutTracker.init],
   (session_tracker_reconnect_window (SessionTimeoutTracker.init 600) 0
      (by norm_num [SessionTimeoutTracker.init])).1,
   (session_tracker_reconnect_window (SessionTimeoutTracker.init 600) 0
      (by norm_num [SessionTimeoutTracker.init])).2.1 600
      (by norm_num [SessionTimeoutTracker.init]),
   ((session_tracker_reconnect_window (SessionTimeoutTracker.init 600) 0
      (by norm_num [SessionTimeoutTracker.init])).2.2 50).1⟩

theorem prefill_spec (n : Nat) : ∀ s : BasePlaybackDevice,
    s.queue.length + n ≤ s.queueMaxsize →
    (s.prefill n).queue = s.queue ++ List.replicate n s.silence ∧
    (s.prefill n).silence = s.silence ∧
    (s.prefill n).streamOpen = s.streamOpen ∧
    (s.prefill n).pstate = s.pstate ∧
    (s.prefill n).prebuffer_size = s.prebuffer_size := by
  induction n with
  | zero =>
      intro s h
      simp [BasePlaybackDevice.prefill]
  | succ n ih =>
      intro s h
      rw [BasePlaybackDevice.prefill]
      have hlt : s.queue.length < s.queueMaxsize := by omega
      have hput : s.put_nowait_silence = { s with queue := s.queue ++ [s.silence] } := by
        simp [BasePlaybackDevice.put_nowait_silence, hlt]
      rw [hput]
      obtain ⟨h1, h2, h3, h4, h5⟩ := ih { s with queue := s.queue ++ [s.silence] }
        (by simp only [List.length_append, List.length_cons, List.length_nil]; omega)
      refine ⟨?_, h2, h3, h4, h5⟩
      rw [h1]
      simp [List.replicate_succ, List.append_assoc]

/-- C7: starting a playback port from STOPPED pre-fills the queue with
exactly `_prebuffer_size` all-zero buffers of
chunk_size·channels·(BIT_DEPTH/8) bytes each, and does so before the
hardware stream is opened: the intermediate state after the pre-fill loop
still has the stream closed and already holds the full pre-buffer, and
whatever `start` returns holds exactly those silence buffers. -/
theorem playback_start_prefills (s : BasePlaybackDevice)
    (hst : s.pstate = PlaybackState.STOPPED) (hq : s.queue = [])
    (hso : s.streamOpen = false)
    (hcap : s.prebuffer_size ≤ s.queueMaxsize)
    (hsil : s.silence = List.replicate (s.chunk_size * s.channels * (BIT_DEPTH / 8)) 0) :
    s.start = Except.ok
      { ({ s with pstate := PlaybackState.STARTING }).prefill s.prebuffer_size with
        streamOpen := true, pstate := PlaybackState.RUNNING } ∧
    (({ s with pstate := PlaybackState.STARTING }).prefill s.prebuffer_size).streamOpen
        = false ∧
    (({ s with pstate := PlaybackState.STARTING }).prefill s.prebuffer_size).queue
        = List.replicate s.prebuffer_size
            (List.replicate (s.chunk_size * s.channels * (BIT_DEPTH / 8)) 0) ∧
    (({ s with pstate := PlaybackState.STARTING }).prefill s.prebuffer_size).queue.length
        = s.prebuffer_size ∧
    (∀ t : BasePlaybackDevice, s.start = Except.ok t →
      t.queue = List.replicate s.prebuffer_size
          (List.replicate (s.chunk_size * s.channels * (BIT_DEPTH / 8)) 0)) := by
  obtain ⟨h1, h2, h3, h4, h5⟩ :=
    prefill_spec s.prebuffer_size { s with pstate := PlaybackState.STARTING }
      (by simpa [hq] using hcap)
  have hqueue :
      (({ s with pstate := PlaybackState.STARTING }).prefill s.prebuffer_size).queue
        = List.replicate s.prebuffer_size
            (List.replicate (s.chunk_size * s.channels * (BIT_DEPTH / 8)) 0) := by
    rw [h1]
    simp [hq, hsil]
  have hstart : s.start = Except.ok
      { ({ s with pstate := PlaybackState.STARTING }).prefill s.prebuffer_size with
        streamOpen := true, pstate := PlaybackState.RUNNING } := by
    simp [BasePlaybackDevice.start, hst]
  refine ⟨hstart, by rw [h3]; exact hso, hqueue, by rw [hqueue]; simp, ?_⟩
  intro t ht
  rw [hstart] at ht
  cases ht
  simpa using hqueue

/-- Witness for C7 on a freshly initialized device: two silence buffers of
two zero bytes each. -/
theorem playback_start_prefills_witness :
    playbackStoppedEx.pstate = PlaybackState.STOPPED ∧
    (({ playbackStoppedEx with
        pstate := PlaybackState.STARTING }).prefill playbackStoppedEx.prebuffer_size).queue
      = List.replicate playbackStoppedEx.prebuffer_size
          (List.replicate
            (playbackStoppedEx.chunk_size * playbackStoppedEx.channels * (BIT_DEPTH / 8))
            0) ∧
    (({ playbackStoppedEx with
        pstate := PlaybackState.STARTING }).prefill
          playbackStoppedEx.prebuffer_size).streamOpen = false :=
  ⟨rfl,
   (playback_start_prefills playbackStoppedEx rfl rfl rfl (by decide) (by decide)).2.2.1,
   (playback_start_prefills playbackStoppedEx rfl rfl rfl (by decide) (by decide)).2.1⟩

/-- C6 counterexample: on the constant stereo frame (L, R) = (1, 2) the
code yields sample 1 (the numpy `astype` truncation of 1.5), while
round((L+R)/2) = round(1.5) = 2, so the mono sample is not the rounded
average. -/
theorem convert_to_mono_not_round :
    convert_to_mono [1, 2] = [1] ∧ (1 : ℤ) ≠ round ((1 + 2 : ℚ) / 2) := by
  constructor
  · rfl
  · norm_num [round_eq]

/-- C6 (amended): on a stereo 16-bit buffer whose every frame is the
constant pair (L, R), both `convert_to_mono` and the in-callback mixdown
produce, for every frame, the average (L+R)/2 truncated toward zero
(`Int.tdiv`, the numpy `astype(int16)` cast) — not the rounded average —
with the frame count preserved and the chunk relabeled as 1 channel. -/
theorem stereo_to_mono_const_frames (n : Nat) (L R : Int)
    (hL1 : -32768 ≤ L) (hL2 : L ≤ 32767) (hR1 : -32768 ≤ R) (hR2 : R ≤ 32767) :
    convert_to_mono (interleaveConst n L R) = List.replicate n (Int.tdiv (L + R) 2) ∧
    SystemAudioCapture.mixStereoToMono (interleaveConst n L R)
        = List.replicate n (Int.tdiv (L + R) 2) ∧
    (SystemAudioCapture.callback_chunk true 2 (interleaveConst n L R) n).samples
        = List.replicate n (Int.tdiv (L + R) 2) ∧
    (SystemAudioCapture.callback_chunk true 2 (interleaveConst n L R) n).channels = 1 ∧
    (SystemAudioCapture.callback_chunk true 2 (interleaveConst n L R) n).frames = n := by
  have h1 : convert_to_mono (interleaveConst n L R)
      = List.replicate n (Int.tdiv (L + R) 2) := by
    induction n with
    | zero => rfl
    | succ n ih =>
        simp [interleaveConst, convert_to_mono, meanAstypeInt16, ih, List.replicate_succ]
  have h2 : SystemAudioCapture.mixStereoToMono (interleaveConst n L R)
      = List.replicate n (Int.tdiv (L + R) 2) := by
    clear h1
    induction n with
    | zero => rfl
    | succ n ih =>
        simp [interleaveConst, SystemAudioCapture.mixStereoToMono, meanAstypeInt16, ih,
          List.replicate_succ]
  refine ⟨h1, h2, ?_, ?_, ?_⟩ <;>
    simp [SystemAudioCapture.callback_chunk, h2]

/-- Witness for C6 (amended) at n = 2 frames of (L, R) = (1, 2): both
mixdowns give [1, 1], channels 1, frames 2. -/
theorem stereo_to_mono_const_frames_witness :
    (-32768 ≤ (1 : Int) ∧ (1 : Int) ≤ 32767 ∧ -32768 ≤ (2 : Int) ∧ (2 : Int) ≤ 32767) ∧
    convert_to_mono (interleaveConst 2 1 2) = List.replicate 2 (Int.tdiv (1 + 2) 2) ∧
    (SystemAudioCapture.callback_chunk true 2 (interleaveConst 2 1 2) 2).channels = 1 ∧
    (SystemAudioCapture.callback_chunk true 2 (interleaveConst 2 1 2) 2).frames = 2 :=
  ⟨⟨by decide, by decide, by decide, by decide⟩,
   (stereo_to_mono_const_frames 2 1 2 (by decide) (by decide) (by decide) (by decide)).1,
   (stereo_to_mono_const_frames 2 1 2 (by decide) (by decide) (by decide)
      (by decide)).2.2.2.1,
   (stereo_to_mono_const_frames 2 1 2 (by decide) (by decide) (by decide)
      (by decide)).2.2.2.2⟩

theorem initialize_gemini_client_none (s : TranslationPipeline)
    (hg : s.gemini_client = none) :
    s.initialize_gemini_client =
      { s with gemini_client := some s.nextClientId, nextClientId := s.nextClientId + 1 } := by
  unfold TranslationPipeline.initialize_gemini_client
  rw [hg]

theorem initialize_gemini_client_some (s : TranslationPipeline) (g : Nat)
    (hg : s.gemini_client = some g) :
    s.initialize_gemini_client = s := by
  unfold TranslationPipeline.initialize_gemini_client
  rw [hg]

theorem init_bidi_none_none (s : TranslationPipeline)
    (ho : s.outgoing_gemini_client = none) (hi : s.incoming_gemini_client = none) :
    s.initialize_bidirectional_clients =
      { s with outgoing_gemini_client := some s.nextClientId
               incoming_gemini_client := some (s.nextClientId + 1)
               nextClientId := s.nextClientId + 1 + 1 } := by
  unfold TranslationPipeline.initialize_bidirectional_clients
  rw [ho]
  simp [hi]

theorem init_bidi_some_none (s : TranslationPipeline) (a : Nat)
    (ho : s.outgoing_gemini_client = some a) (hi : s.incoming_gemini_client = none) :
    s.initialize_bidirectional_clients =
      { s with incoming_gemini_client := some s.nextClientId
               nextClientId := s.nextClientId + 1 } := by
  unfold TranslationPipeline.initialize_bidirectional_clients
  rw [ho]
  simp [hi, ho]

theorem init_bidi_none_some (s : TranslationPipeline) (b : Nat)
    (ho : s.outgoing_gemini_client = none) (hi : s.incoming_gemini_client = some b) :
    s.initialize_bidirectional_clients =
      { s with outgoing_gemini_client := some s.nextClientId
               nextClientId := s.nextClientId + 1 } := by
  unfold TranslationPipeline.initialize_bidirectional_clients
  rw [ho]
  simp [hi]

theorem init_bidi_some_some (s : TranslationPipeline) (a b : Nat)
    (ho : s.outgoing_gemini_client = some a) (hi : s.incoming_gemini_client = some b) :
    s.initialize_bidirectional_clients = s := by
  unfold TranslationPipeline.initialize_bidirectional_clients
  rw [ho]
  simp [hi]

theorem clientInv_step (s t : TranslationPipeline) (hinv : s.ClientInv)
    (hst : PipelineStep s t) : t.ClientInv := by
  obtain ⟨ihg, iho, ihi, ihd, ihr⟩ := hinv
  cases hst with
  | startOutgoing _ heq =>
      unfold TranslationPipeline.start_outgoing at heq
      by_cases hrun : s.pstate = PipelineState.RUNNING
      · rw [if_pos hrun] at heq
        cases heq
      · rw [if_neg hrun] at heq
        injection heq with heq
        subst heq
        cases hg : s.gemini_client with
        | none =>
            rw [initialize_gemini_client_none _ (by simp [hg])]
            unfold TranslationPipeline.ClientInv
            dsimp only
            refine ⟨?_, ?_, ?_, ihd, ?_⟩
            · intro i hi
              injection hi with hi
              omega
            · intro i hi
              have := iho i hi
              omega
            · intro i hi
              have := ihi i hi
              omega
            · intro _ hmode
              simp at hmode
        | some g =>
            rw [initialize_gemini_client_some _ g (by simp [hg])]
            unfold TranslationPipeline.ClientInv
            dsimp only
            refine ⟨fun i hi => ihg i (hg.trans hi), iho, ihi, ihd, ?_⟩
            intro _ hmode
            simp at hmode
  | startIncoming _ heq =>
      unfold TranslationPipeline.start_incoming at heq
      by_cases hrun : s.pstate = PipelineState.RUNNING
      · rw [if_pos hrun] at heq
        cases heq
      · rw [if_neg hrun] at heq
        injection heq with heq
        subst heq
        cases hg : s.gemini_client with
        | none =>
            rw [initialize_gemini_client_none _ (by simp [hg])]
            unfold TranslationPipeline.ClientInv
            dsimp only
            refine ⟨?_, ?_, ?_, ihd, ?_⟩
            · intro i hi
              injection hi with hi
              omega
            · intro i hi
              have := iho i hi
              omega
            · intro i hi
              have := ihi i hi
              omega
            · intro _ hmode
              simp at hmode
        | some g =>
            rw [initialize_gemini_client_some _ g (by simp [hg])]
            unfold TranslationPipeline.ClientInv
            dsimp only
            refine ⟨fun i hi => ihg i (hg.trans hi), iho, ihi, ihd, ?_⟩
            intro _ hmode
            simp at hmode
  | startBidirectional _ heq =>
      unfold TranslationPipeline.start_bidirectional at heq
      by_cases hrun : s.pstate = PipelineState.RUNNING
      · rw [if_pos hrun] at heq
        cases heq
      · rw [if_neg hrun] at heq
        injection heq with heq
        subst heq
        cases ho : s.outgoing_gemini_client with
        | none =>
            cases hi : s.incoming_gemini_client with
            | none =>
                rw [init_bidi_none_none _ (by simp [ho]) (by simp [hi])]
                unfold TranslationPipeline.ClientInv
                dsimp only
                refine ⟨?_, ?_, ?_, ?_, ?_⟩
                · intro i hgi
                  have := ihg i hgi
                  omega
                · intro i hgi
                  injection hgi with hgi
                  omega
                · intro i hgi
                  injection hgi with hgi
                  omega
                · intro a b ha hb
                  injection ha with ha
                  injection hb with hb
                  omega
                · intro _ _
                  exact ⟨rfl, rfl⟩
            | some b =>
                rw [init_bidi_none_some _ b (by simp [ho]) (by simp [hi])]
                unfold TranslationPipeline.ClientInv
                dsimp only
                refine ⟨?_, ?_, ?_, ?_, ?_⟩
                · intro i hgi
                  have := ihg i hgi
                  omega
                · intro i hgi
                  injection hgi with hgi
                  omega
                · intro i hgi
                  have := ihi i (hi.trans hgi)
                  omega
                · intro a0 b0 ha hb
                  injection ha with ha
                  have hb2 := ihi b0 (hi.trans hb)
                  omega
                · intro _ _
                  exact ⟨rfl, by simp [hi]⟩
        | some a =>
            cases hi : s.incoming_gemini_client with
            | none =>
                rw [init_bidi_some_none _ a (by simp [ho]) (by simp [hi])]
                unfold TranslationPipeline.ClientInv
                dsimp only
                refine ⟨?_, ?_, ?_, ?_, ?_⟩
                · intro i hgi
                  have := ihg i hgi
                  omega
                · intro i hgi
                  have := iho i (ho.trans hgi)
                  omega
                · intro i hgi
                  injection hgi with hgi
                  omega
                · intro a0 b0 ha hb
                  injection hb with hb
                  have ha2 := iho a0 (ho.trans ha)
                  omega
                · intro _ _
                  exact ⟨by simp [ho], rfl⟩
            | some b =>
                rw [init_bidi_some_some _ a b (by simp [ho]) (by simp [hi])]
                unfold TranslationPipeline.ClientInv
                dsimp only
                refine ⟨ihg, fun i hgi => iho i (ho.trans hgi),
                  fun i hgi => ihi i (hi.trans hgi),
                  fun a0 b0 ha hb => ihd a0 b0 (ho.trans ha) (hi.trans hb), ?_⟩
                intro _ _
                exact ⟨by simp [ho], by simp [hi]⟩
  | stop =>
      unfold TranslationPipeline.stop
      by_cases hstop : s.pstate = PipelineState.STOPPED
      · rw [if_pos hstop]
        exact ⟨ihg, iho, ihi, ihd, ihr⟩
      · rw [if_neg hstop]
        unfold TranslationPipeline.ClientInv
        dsimp only
        refine ⟨?_, ?_, ?_, ?_, ?_⟩
        · intro i hi
          simp at hi
        · intro i hi
          simp at hi
        · intro i hi
          simp at hi
        · intro a b ha hb
          simp at ha
        · intro h1 h2
          simp at h2

theorem pipeline_reachable_clientInv (s : TranslationPipeline)
    (h : PipelineReachable s) : s.ClientInv := by
  induction h with
  | init =>
      refine ⟨?_, ?_, ?_, ?_, ?_⟩ <;>
        simp [TranslationPipeline.init]
  | step s t hs hst ih =>
      exact clientInv_step s t ih hst

/-- C5: in every reachable RUNNING bidirectional pipeline state there are
two translation-link clients, independently allocated and distinct — the
outgoing loops resolve their `client = gemini_client or self._gemini_client`
to the first, the incoming loops to the second, and no reachable state has
both directions sharing one client instance. -/
theorem bidirectional_uses_two_independent_clients (s : TranslationPipeline)
    (hr : PipelineReachable s) (hrun : s.pstate = PipelineState.RUNNING)
    (hmode : s.current_mode = some PipelineMode.BIDIRECTIONAL) :
    ∃ a b : Nat, s.outgoing_gemini_client = some a ∧
      s.incoming_gemini_client = some b ∧ a ≠ b ∧
      loopClient s.outgoing_gemini_client s.gemini_client = some a ∧
      loopClient s.incoming_gemini_client s.gemini_client = some b := by
  obtain ⟨_, _, _, hd, hrb⟩ := pipeline_reachable_clientInv s hr
  obtain ⟨hso, hsi⟩ := hrb hrun hmode
  obtain ⟨a, ha⟩ := Option.isSome_iff_exists.mp hso
  obtain ⟨b, hb⟩ := Option.isSome_iff_exists.mp hsi
  exact ⟨a, b, ha, hb, hd a b ha hb, by simp [loopClient, ha], by simp [loopClient, hb]⟩

/-- Witness for C5: the state reached by `start_bidirectional` from a fresh
pipeline is RUNNING and bidirectional, and its two clients differ. -/
theorem bidirectional_uses_two_independent_clients_witness :
    pipelineBidiEx.pstate = PipelineState.RUNNING ∧
    pipelineBidiEx.current_mode = some PipelineMode.BIDIRECTIONAL ∧
    pipelineBidiEx.outgoing_gemini_client ≠ pipelineBidiEx.incoming_gemini_client := by
  have hreach : PipelineReachable pipelineBidiEx :=
    PipelineReachable.step TranslationPipeline.init pipelineBidiEx
      PipelineReachable.init
      (PipelineStep.startBidirectional TranslationPipeline.init pipelineBidiEx rfl)
  refine ⟨rfl, rfl, ?_⟩
  obtain ⟨a, b, ha, hb, hab, -, -⟩ :=
    bidirectional_uses_two_independent_clients pipelineBidiEx hreach rfl rfl
  rw [ha, hb]
  simp [hab]

end ZoomS2S
